import Mathlib

/-!
Shallow embedding of the MIDI parsing and sustain-pedal state machine of
`app/src/main/cpp/MidiManager.cpp` (heart-beatz), together with the polling
loop of `readThreadRoutine`.

Conventions of the embedding:
* C++ `uint8_t x = e & 0xFF` on a `Nat` byte is embedded as `e % 256`
  (for natural numbers, `e &&& 0xFF = e % 256`).
* `std::set<int>` becomes `Finset Nat`; `std::set` iteration is in
  increasing order, embedded with `Finset.sort (· ≤ ·)`.
* Calls into the synthesis engine (`SynthManager`) and the strings sent to
  the Java callback (`sendToCallback`) are collected as explicit output
  lists (`List SynthCall`, `List Trace`); the payloads of a `Trace` record
  the integers that the C++ code streams into the message.
-/

/-- MIDI Note OFF channel command nibble (`kMIDIChanCmd_NoteOff`, MidiSpec.h). -/
def kMIDIChanCmd_NoteOff : Nat := 0x08

/-- MIDI Note ON channel command nibble (`kMIDIChanCmd_NoteOn`, MidiSpec.h). -/
def kMIDIChanCmd_NoteOn : Nat := 0x09

/-- MIDI Key Pressure channel command nibble (`kMIDIChanCmd_KeyPress`, MidiSpec.h). -/
def kMIDIChanCmd_KeyPress : Nat := 0x0A

/-- MIDI Control Change channel command nibble (`kMIDIChanCmd_Control`, MidiSpec.h). -/
def kMIDIChanCmd_Control : Nat := 0x0B

/-- MIDI Program Change channel command nibble (`kMIDIChanCmd_ProgramChange`, MidiSpec.h). -/
def kMIDIChanCmd_ProgramChange : Nat := 0x0C

/-- MIDI Channel Pressure channel command nibble (`kMIDIChanCmd_ChannelPress`, MidiSpec.h). -/
def kMIDIChanCmd_ChannelPress : Nat := 0x0D

/-- MIDI Pitch Bend channel command nibble (`kMIDIChanCmd_PitchWheel`, MidiSpec.h). -/
def kMIDIChanCmd_PitchWheel : Nat := 0x0E

/-- MIDI sustain pedal controller number (`kMIDIControl_Sustain`, MidiSpec.h). -/
def kMIDIControl_Sustain : Nat := 0x40

/-- Sustain value threshold for pedal on/off (`kMIDIControl_Sustain_level`, MidiSpec.h). -/
def kMIDIControl_Sustain_level : Nat := 64

/-- MIDI reverb send controller number (`kMIDIControl_Reverb`, MidiSpec.h). -/
def kMIDIControl_Reverb : Nat := 0x5B

/-- MIDI channel-command mask (`kMIDISysCmdChan`, MidiSpec.h). -/
def kMIDISysCmdChan : Nat := 0xF0

/-- Opcode of an AMidi data frame (`AMIDI_OPCODE_DATA`, NDK `amidi/AMidi.h`;
external to the repository, only compared for equality here). -/
def AMIDI_OPCODE_DATA : Int := 1

/-- One call into the synthesis engine (`SynthManager`). -/
inductive SynthCall where
  | noteOn (note velocity : Nat)
  | noteOff (note : Nat)
  | reverb (value : Nat)
  | sendCC (controller value : Nat)
deriving DecidableEq, Repr

/-- One human-readable line sent through `sendToCallback`; the payloads are
the integers the C++ code streams into the message. -/
inductive Trace where
  | noteOffMsg (note : Nat)
  | noteOnMsg (note velocity : Nat)
  | sustainOnMsg (value : Nat)
  | sustainOffMsg (value : Nat)
  | reverbMsg (value : Nat)
  | unparsedControlMsg (controller value : Nat)
  | keyPressMsg (note velocity status : Nat)
  | programChangeMsg (note velocity status : Nat)
  | channelPressMsg (note velocity status : Nat)
  | pitchWheelMsg (note velocity status : Nat)
  | unparsedMsg (note velocity status : Nat)
deriving DecidableEq, Repr

/-- The mutable note/sustain state of `MidiManager`: the `sustain` flag and
the `playNotes` / `sustainNotes` sets. -/
structure MidiState where
  sustain : Bool
  playNotes : Finset Nat
  sustainNotes : Finset Nat
deriving DecidableEq

/-- State of `MidiManager` right after construction: `sustain(false)` and
both note sets empty. -/
def initState : MidiState := ⟨false, ∅, ∅⟩

/-- Embedding of `MidiManager::parseMidiCmdControl(controller, value)`.
Returns the new state, the engine calls issued, and the trace lines sent. -/
def parseMidiCmdControl (s : MidiState) (controller value : Nat) :
    MidiState × List SynthCall × List Trace :=
  if controller = kMIDIControl_Sustain then
    if kMIDIControl_Sustain_level ≤ value then
      -- sustain = true; sustainNotes.insert(playNotes.begin(), playNotes.end())
      (⟨true, s.playNotes,
        if s.playNotes.Nonempty then s.sustainNotes ∪ s.playNotes else s.sustainNotes⟩,
       [], [Trace.sustainOnMsg value])
    else
      -- sustain = false; stop all sustained notes not in playNotes; clear
      (⟨false, s.playNotes, ∅⟩,
       ((s.sustainNotes.sort (· ≤ ·)).filter
          (fun n => decide (n ∉ s.playNotes))).map SynthCall.noteOff,
       [Trace.sustainOffMsg value])
  else if controller = kMIDIControl_Reverb then
    (s, [SynthCall.reverb value], [Trace.reverbMsg value])
  else
    (s, [SynthCall.sendCC controller value], [Trace.unparsedControlMsg controller value])

/-- Embedding of `MidiManager::parseMidiData(data, numBytes)`; the byte
count is the length of `data`. Returns the new state, the engine calls
issued, and the trace lines sent. -/
def parseMidiData (s : MidiState) (data : List Nat) :
    MidiState × List SynthCall × List Trace :=
  if data.length < 3 then (s, [], []) else
  let status := data.getD 0 0 % 256
  let note := data.getD 1 0 % 256
  let velocity := data.getD 2 0 % 256
  let cmd := (status &&& kMIDISysCmdChan) >>> 4
  if cmd = kMIDIChanCmd_NoteOff then
    (⟨s.sustain, s.playNotes.erase note,
      if s.sustain then s.sustainNotes else s.sustainNotes.erase note⟩,
     if s.sustain then [] else [SynthCall.noteOff note],
     [Trace.noteOffMsg note])
  else if cmd = kMIDIChanCmd_NoteOn then
    (⟨s.sustain, insert note s.playNotes,
      if s.sustain then insert note s.sustainNotes else s.sustainNotes⟩,
     [SynthCall.noteOn note velocity],
     [Trace.noteOnMsg note velocity])
  else if cmd = kMIDIChanCmd_Control then
    parseMidiCmdControl s note velocity
  else if cmd = kMIDIChanCmd_KeyPress then
    (s, [], [Trace.keyPressMsg note velocity status])
  else if cmd = kMIDIChanCmd_ProgramChange then
    (s, [], [Trace.programChangeMsg note velocity status])
  else if cmd = kMIDIChanCmd_ChannelPress then
    (s, [], [Trace.channelPressMsg note velocity status])
  else if cmd = kMIDIChanCmd_PitchWheel then
    (s, [], [Trace.pitchWheelMsg note velocity status])
  else
    (s, [], [Trace.unparsedMsg note velocity status])

/-- Folding `parseMidiData` over a sequence of frames, keeping only the
state: the reachable-state semantics of the parser. -/
def processFrames (s : MidiState) (frames : List (List Nat)) : MidiState :=
  frames.foldl (fun st f => (parseMidiData st f).1) s

/-- One result of `AMidiOutputPort_receive` as seen by `readThreadRoutine`:
the message count (negative on fatal failure), the byte count (a `size_t`,
hence a `Nat` — the C++ check `numBytesReceived >= 0` is always true), the
opcode, and the receive buffer. -/
structure TransportInput where
  numMessagesReceived : Int
  numBytesReceived : Nat
  opcode : Int
  message : List Nat
deriving DecidableEq, Repr

/-- The loop-visible state of `readThreadRoutine`: the `reading` flag and
the manager's note/sustain state. -/
structure LoopState where
  reading : Bool
  midi : MidiState
deriving DecidableEq

/-- One iteration of the `while (manager->reading)` loop of
`readThreadRoutine` on a given transport result. When `reading` is already
false the loop body does not run (the `while` condition fails), embedded as
the identity with no outputs. -/
def loopStep (ls : LoopState) (inp : TransportInput) :
    LoopState × List SynthCall × List Trace :=
  if ls.reading then
    let reading' := if inp.numMessagesReceived < 0 then false else ls.reading
    if 0 < inp.numMessagesReceived ∧ inp.opcode = AMIDI_OPCODE_DATA ∧
        (inp.message.getD 0 0 % 256) &&& kMIDISysCmdChan ≠ kMIDISysCmdChan then
      let r := parseMidiData ls.midi (inp.message.take inp.numBytesReceived)
      (⟨reading', r.1⟩, r.2.1, r.2.2)
    else
      (⟨reading', ls.midi⟩, [], [])
  else (ls, [], [])

/-- Running the polling loop over a list of successive transport results,
collecting all engine calls. -/
def runLoop : LoopState → List TransportInput → LoopState × List SynthCall
  | ls, [] => (ls, [])
  | ls, inp :: rest =>
    let r := loopStep ls inp
    let rr := runLoop r.1 rest
    (rr.1, r.2.1 ++ rr.2)

/-! ### Branch equations for `parseMidiData` and `parseMidiCmdControl` -/

theorem noteOff_injective : Function.Injective SynthCall.noteOff := by
  intro a b h
  injection h

theorem parseMidiData_noteOff_eq (s : MidiState) (b0 d1 d2 : Nat) (rest : List Nat)
    (h : ((b0 % 256) &&& kMIDISysCmdChan) >>> 4 = kMIDIChanCmd_NoteOff) :
    parseMidiData s (b0 :: d1 :: d2 :: rest) =
      (⟨s.sustain, s.playNotes.erase (d1 % 256),
        if s.sustain then s.sustainNotes else s.sustainNotes.erase (d1 % 256)⟩,
       if s.sustain then [] else [SynthCall.noteOff (d1 % 256)],
       [Trace.noteOffMsg (d1 % 256)]) := by
  simp only [parseMidiData, List.length_cons, List.getD_cons_zero, List.getD_cons_succ, h]
  norm_num [kMIDIChanCmd_NoteOff]

theorem parseMidiData_noteOn_eq (s : MidiState) (b0 d1 d2 : Nat) (rest : List Nat)
    (h : ((b0 % 256) &&& kMIDISysCmdChan) >>> 4 = kMIDIChanCmd_NoteOn) :
    parseMidiData s (b0 :: d1 :: d2 :: rest) =
      (⟨s.sustain, insert (d1 % 256) s.playNotes,
        if s.sustain then insert (d1 % 256) s.sustainNotes else s.sustainNotes⟩,
       [SynthCall.noteOn (d1 % 256) (d2 % 256)],
       [Trace.noteOnMsg (d1 % 256) (d2 % 256)]) := by
  simp only [parseMidiData, List.length_cons, List.getD_cons_zero, List.getD_cons_succ, h]
  norm_num [kMIDIChanCmd_NoteOff, kMIDIChanCmd_NoteOn]

theorem parseMidiData_control_eq (s : MidiState) (b0 d1 d2 : Nat) (rest : List Nat)
    (h : ((b0 % 256) &&& kMIDISysCmdChan) >>> 4 = kMIDIChanCmd_Control) :
    parseMidiData s (b0 :: d1 :: d2 :: rest) =
      parseMidiCmdControl s (d1 % 256) (d2 % 256) := by
  simp only [parseMidiData, List.length_cons, List.getD_cons_zero, List.getD_cons_succ, h]
  norm_num [kMIDIChanCmd_NoteOff, kMIDIChanCmd_NoteOn, kMIDIChanCmd_Control]

theorem parseMidiCmdControl_pedal_down_eq (s : MidiState) (value : Nat)
    (h : 64 ≤ value) :
    parseMidiCmdControl s 64 value =
      (⟨true, s.playNotes, s.sustainNotes ∪ s.playNotes⟩, [], [Trace.sustainOnMsg value]) := by
  unfold parseMidiCmdControl
  rw [if_pos (show (64 : Nat) = kMIDIControl_Sustain from rfl),
    if_pos (show kMIDIControl_Sustain_level ≤ value from h)]
  rcases Finset.eq_empty_or_nonempty s.playNotes with he | hne
  · simp [he]
  · simp [hne]

theorem parseMidiCmdControl_pedal_up_eq (s : MidiState) (value : Nat)
    (h : value < 64) :
    parseMidiCmdControl s 64 value =
      (⟨false, s.playNotes, ∅⟩,
       ((s.sustainNotes.sort (· ≤ ·)).filter
          (fun n => decide (n ∉ s.playNotes))).map SynthCall.noteOff,
       [Trace.sustainOffMsg value]) := by
  unfold parseMidiCmdControl
  rw [if_pos (show (64 : Nat) = kMIDIControl_Sustain from rfl),
    if_neg (show ¬ kMIDIControl_Sustain_level ≤ value from by
      unfold kMIDIControl_Sustain_level
      omega)]

/-! ### C7: short frames are a total no-op -/

/-- C7: Short-frame drop is a silent total no-op: for every byte buffer of
fewer than 3 bytes, `parseMidiData` produces no engine call, no trace, and
leaves the state exactly unchanged. -/
theorem short_frame_noop (s : MidiState) (data : List Nat) (h : data.length < 3) :
    parseMidiData s data = (s, [], []) := by
  unfold parseMidiData
  rw [if_pos h]

/-- Witness for C7 at a concrete 2-byte buffer and a nontrivial state. -/
theorem short_frame_noop_witness :
    ([0x90, 60] : List Nat).length < 3 ∧
      parseMidiData ⟨true, {60}, {62}⟩ [0x90, 60] = (⟨true, {60}, {62}⟩, [], []) :=
  ⟨by decide, short_frame_noop ⟨true, {60}, {62}⟩ [0x90, 60] (by decide)⟩

/-! ### C1: sustain pedal-up reconciliation -/

/-- C1: Sustain pedal-up reconciliation: for every state, a Control frame
with controller 64 and value < 64 sets the sustain flag to false, leaves
Sustained Notes empty and Playing Notes unchanged, issues exactly one
engine note-off for each note in Sustained Notes and not in Playing Notes,
and no note-off for any note in Playing Notes. -/
theorem pedal_up_reconciliation (s : MidiState) (b0 value : Nat) (rest : List Nat)
    (hcmd : ((b0 % 256) &&& kMIDISysCmdChan) >>> 4 = kMIDIChanCmd_Control)
    (hv : value < 64) :
    (parseMidiData s (b0 :: 64 :: value :: rest)).1.sustain = false ∧
    (parseMidiData s (b0 :: 64 :: value :: rest)).1.sustainNotes = ∅ ∧
    (parseMidiData s (b0 :: 64 :: value :: rest)).1.playNotes = s.playNotes ∧
    (∀ n ∈ s.sustainNotes, n ∉ s.playNotes →
      (parseMidiData s (b0 :: 64 :: value :: rest)).2.1.count (SynthCall.noteOff n) = 1) ∧
    (∀ n ∈ s.playNotes,
      SynthCall.noteOff n ∉ (parseMidiData s (b0 :: 64 :: value :: rest)).2.1) := by
  have h64 : (64 : Nat) % 256 = 64 := by norm_num
  have hv' : value % 256 = value := Nat.mod_eq_of_lt (by omega)
  rw [parseMidiData_control_eq s b0 64 value rest hcmd, h64, hv',
    parseMidiCmdControl_pedal_up_eq s value hv]
  refine ⟨rfl, rfl, rfl, ?_, ?_⟩
  · intro n hn hnp
    apply List.count_eq_one_of_mem
    · exact ((Finset.sort_nodup _ _).filter
        (fun m => decide (m ∉ s.playNotes))).map noteOff_injective
    · exact List.mem_map_of_mem _
        (List.mem_filter.mpr ⟨(Finset.mem_sort _).mpr hn, by simp [hnp]⟩)
  · intro n hn hmem
    rcases List.mem_map.mp hmem with ⟨m, hm, he⟩
    have hmn : m = n := noteOff_injective he
    subst hmn
    have hflt := (List.mem_filter.mp hm).2
    simp only [decide_eq_true_eq] at hflt
    exact hflt hn

/-- Witness for C1: state with a held note 60 and sustained notes {60, 62};
pedal-up must stop 62 and not 60. -/
theorem pedal_up_reconciliation_witness :
    (((0xB0 : Nat) % 256) &&& kMIDISysCmdChan) >>> 4 = kMIDIChanCmd_Control ∧
    (0 : Nat) < 64 ∧
    ((parseMidiData ⟨true, {60}, {60, 62}⟩ [0xB0, 64, 0]).1.sustain = false ∧
     (parseMidiData ⟨true, {60}, {60, 62}⟩ [0xB0, 64, 0]).1.sustainNotes = ∅ ∧
     (parseMidiData ⟨true, {60}, {60, 62}⟩ [0xB0, 64, 0]).1.playNotes =
       (⟨true, {60}, {60, 62}⟩ : MidiState).playNotes ∧
     (∀ n ∈ (⟨true, {60}, {60, 62}⟩ : MidiState).sustainNotes,
        n ∉ (⟨true, {60}, {60, 62}⟩ : MidiState).playNotes →
        (parseMidiData ⟨true, {60}, {60, 62}⟩ [0xB0, 64, 0]).2.1.count
          (SynthCall.noteOff n) = 1) ∧
     (∀ n ∈ (⟨true, {60}, {60, 62}⟩ : MidiState).playNotes,
        SynthCall.noteOff n ∉ (parseMidiData ⟨true, {60}, {60, 62}⟩ [0xB0, 64, 0]).2.1)) :=
  ⟨by decide, by decide,
    pedal_up_reconciliation ⟨true, {60}, {60, 62}⟩ 0xB0 0 [] (by decide) (by decide)⟩

/-! ### C2: sustain pedal-down catch -/

/-- C2: Sustain pedal-down catch: for every state, a Control frame with
controller 64 and value ≥ 64 sets the sustain flag to true, makes Sustained
Notes the union of the previous Sustained Notes and the current Playing
Notes, issues no engine call, and leaves Playing Notes unchanged. -/
theorem pedal_down_catch (s : MidiState) (b0 value : Nat) (rest : List Nat)
    (hcmd : ((b0 % 256) &&& kMIDISysCmdChan) >>> 4 = kMIDIChanCmd_Control)
    (h64 : 64 ≤ value) (h256 : value < 256) :
    (parseMidiData s (b0 :: 64 :: value :: rest)).1.sustain = true ∧
    (parseMidiData s (b0 :: 64 :: value :: rest)).1.sustainNotes =
      s.sustainNotes ∪ s.playNotes ∧
    (parseMidiData s (b0 :: 64 :: value :: rest)).1.playNotes = s.playNotes ∧
    (parseMidiData s (b0 :: 64 :: value :: rest)).2.1 = [] := by
  have hm : (64 : Nat) % 256 = 64 := by norm_num
  have hv' : value % 256 = value := Nat.mod_eq_of_lt h256
  rw [parseMidiData_control_eq s b0 64 value rest hcmd, hm, hv',
    parseMidiCmdControl_pedal_down_eq s value h64]
  exact ⟨rfl, rfl, rfl, rfl⟩

/-- Witness for C2: pedal-down with a playing note 60 and a previously
sustained note 62. -/
theorem pedal_down_catch_witness :
    (((0xB5 : Nat) % 256) &&& kMIDISysCmdChan) >>> 4 = kMIDIChanCmd_Control ∧
    (64 : Nat) ≤ 127 ∧ (127 : Nat) < 256 ∧
    ((parseMidiData ⟨false, {60}, {62}⟩ [0xB5, 64, 127]).1.sustain = true ∧
     (parseMidiData ⟨false, {60}, {62}⟩ [0xB5, 64, 127]).1.sustainNotes =
       (⟨false, {60}, {62}⟩ : MidiState).sustainNotes ∪
         (⟨false, {60}, {62}⟩ : MidiState).playNotes ∧
     (parseMidiData ⟨false, {60}, {62}⟩ [0xB5, 64, 127]).1.playNotes =
       (⟨false, {60}, {62}⟩ : MidiState).playNotes ∧
     (parseMidiData ⟨false, {60}, {62}⟩ [0xB5, 64, 127]).2.1 = []) :=
  ⟨by decide, by decide, by decide,
    pedal_down_catch ⟨false, {60}, {62}⟩ 0xB5 127 [] (by decide) (by decide) (by decide)⟩

/-! ### C9: pedal-down idempotence -/

/-- C9: Pedal-down idempotence: for every state, processing two consecutive
Control frames with controller 64 and value ≥ 64 leaves the state identical
to the state after the first frame, and the second frame issues no engine
call. -/
theorem pedal_down_idempotent (s : MidiState) (b0 b0' v v' : Nat)
    (hcmd : ((b0 % 256) &&& kMIDISysCmdChan) >>> 4 = kMIDIChanCmd_Control)
    (hcmd' : ((b0' % 256) &&& kMIDISysCmdChan) >>> 4 = kMIDIChanCmd_Control)
    (h1 : 64 ≤ v) (h2 : v < 256) (h1' : 64 ≤ v') (h2' : v' < 256) :
    (parseMidiData (parseMidiData s [b0, 64, v]).1 [b0', 64, v']).1 =
      (parseMidiData s [b0, 64, v]).1 ∧
    (parseMidiData (parseMidiData s [b0, 64, v]).1 [b0', 64, v']).2.1 = [] := by
  have hm : (64 : Nat) % 256 = 64 := by norm_num
  rw [parseMidiData_control_eq s b0 64 v [] hcmd, hm, Nat.mod_eq_of_lt h2,
    parseMidiCmdControl_pedal_down_eq s v h1,
    parseMidiData_control_eq _ b0' 64 v' [] hcmd', hm, Nat.mod_eq_of_lt h2',
    parseMidiCmdControl_pedal_down_eq _ v' h1']
  constructor
  · simp [Finset.union_assoc]
  · rfl

/-- Witness for C9: two pedal-down frames (values 100 then 64) on a state
with one playing note. -/
theorem pedal_down_idempotent_witness :
    (((0xB0 : Nat) % 256) &&& kMIDISysCmdChan) >>> 4 = kMIDIChanCmd_Control ∧
    (((0xB1 : Nat) % 256) &&& kMIDISysCmdChan) >>> 4 = kMIDIChanCmd_Control ∧
    (64 : Nat) ≤ 100 ∧ (100 : Nat) < 256 ∧ (64 : Nat) ≤ 64 ∧ (64 : Nat) < 256 ∧
    ((parseMidiData (parseMidiData ⟨false, {60}, ∅⟩ [0xB0, 64, 100]).1 [0xB1, 64, 64]).1 =
       (parseMidiData ⟨false, {60}, ∅⟩ [0xB0, 64, 100]).1 ∧
     (parseMidiData (parseMidiData ⟨false, {60}, ∅⟩ [0xB0, 64, 100]).1 [0xB1, 64, 64]).2.1 =
       []) :=
  ⟨by decide, by decide, by decide, by decide, by decide, by decide,
    pedal_down_idempotent ⟨false, {60}, ∅⟩ 0xB0 0xB1 100 64
      (by decide) (by decide) (by decide) (by decide) (by decide) (by decide)⟩

/-! ### C10: velocity-zero NoteOn is a real NoteOn -/

/-- C10: Velocity-zero NoteOn edge case: every NoteOn frame — velocity 0
included — inserts the note into Playing Notes (and into Sustained Notes
when the sustain flag is true), issues exactly the engine
note-on(note, velocity) call, is never interpreted as a note-off, and never
removes any note from either set. -/
theorem noteOn_velocity_zero (s : MidiState) (b0 n v : Nat) (rest : List Nat)
    (hcmd : ((b0 % 256) &&& kMIDISysCmdChan) >>> 4 = kMIDIChanCmd_NoteOn)
    (hn : n < 256) (hv : v < 256) :
    (parseMidiData s (b0 :: n :: v :: rest)).1.playNotes = insert n s.playNotes ∧
    (parseMidiData s (b0 :: n :: v :: rest)).1.sustainNotes =
      (if s.sustain then insert n s.sustainNotes else s.sustainNotes) ∧
    (parseMidiData s (b0 :: n :: v :: rest)).1.sustain = s.sustain ∧
    (parseMidiData s (b0 :: n :: v :: rest)).2.1 = [SynthCall.noteOn n v] ∧
    n ∈ (parseMidiData s (b0 :: n :: v :: rest)).1.playNotes ∧
    (∀ m ∈ s.playNotes, m ∈ (parseMidiData s (b0 :: n :: v :: rest)).1.playNotes) ∧
    (∀ m ∈ s.sustainNotes, m ∈ (parseMidiData s (b0 :: n :: v :: rest)).1.sustainNotes) ∧
    SynthCall.noteOff n ∉ (parseMidiData s (b0 :: n :: v :: rest)).2.1 := by
  rw [parseMidiData_noteOn_eq s b0 n v rest hcmd, Nat.mod_eq_of_lt hn, Nat.mod_eq_of_lt hv]
  refine ⟨rfl, rfl, rfl, rfl, Finset.mem_insert_self _ _,
    fun m hm => Finset.mem_insert_of_mem hm, fun m hm => ?_, by simp⟩
  show m ∈ (if s.sustain then insert n s.sustainNotes else s.sustainNotes)
  by_cases hs : s.sustain = true
  · rw [if_pos hs]
    exact Finset.mem_insert_of_mem hm
  · rw [if_neg hs]
    exact hm

/-- Witness for C10: NoteOn of note 60 with velocity 0 while sustain is
down, with other notes already in both sets. -/
theorem noteOn_velocity_zero_witness :
    (((0x93 : Nat) % 256) &&& kMIDISysCmdChan) >>> 4 = kMIDIChanCmd_NoteOn ∧
    (60 : Nat) < 256 ∧ (0 : Nat) < 256 ∧
    ((parseMidiData ⟨true, {50}, {55}⟩ [0x93, 60, 0]).1.playNotes =
       insert 60 (⟨true, {50}, {55}⟩ : MidiState).playNotes ∧
     (parseMidiData ⟨true, {50}, {55}⟩ [0x93, 60, 0]).1.sustainNotes =
       (if (⟨true, {50}, {55}⟩ : MidiState).sustain then
          insert 60 (⟨true, {50}, {55}⟩ : MidiState).sustainNotes
        else (⟨true, {50}, {55}⟩ : MidiState).sustainNotes) ∧
     (parseMidiData ⟨true, {50}, {55}⟩ [0x93, 60, 0]).1.sustain =
       (⟨true, {50}, {55}⟩ : MidiState).sustain ∧
     (parseMidiData ⟨true, {50}, {55}⟩ [0x93, 60, 0]).2.1 = [SynthCall.noteOn 60 0] ∧
     60 ∈ (parseMidiData ⟨true, {50}, {55}⟩ [0x93, 60, 0]).1.playNotes ∧
     (∀ m ∈ (⟨true, {50}, {55}⟩ : MidiState).playNotes,
        m ∈ (parseMidiData ⟨true, {50}, {55}⟩ [0x93, 60, 0]).1.playNotes) ∧
     (∀ m ∈ (⟨true, {50}, {55}⟩ : MidiState).sustainNotes,
        m ∈ (parseMidiData ⟨true, {50}, {55}⟩ [0x93, 60, 0]).1.sustainNotes) ∧
     SynthCall.noteOff 60 ∉ (parseMidiData ⟨true, {50}, {55}⟩ [0x93, 60, 0]).2.1) :=
  ⟨by decide, by decide, by decide,
    noteOn_velocity_zero ⟨true, {50}, {55}⟩ 0x93 60 0 []
      (by decide) (by decide) (by decide)⟩

/-! ### C8: channel-agnostic decoding -/

theorem parseMidiData_other_eq (s : MidiState) (b0 d1 d2 : Nat) (rest : List Nat)
    (h8 : ((b0 % 256) &&& kMIDISysCmdChan) >>> 4 ≠ kMIDIChanCmd_NoteOff)
    (h9 : ((b0 % 256) &&& kMIDISysCmdChan) >>> 4 ≠ kMIDIChanCmd_NoteOn)
    (h11 : ((b0 % 256) &&& kMIDISysCmdChan) >>> 4 ≠ kMIDIChanCmd_Control) :
    (parseMidiData s (b0 :: d1 :: d2 :: rest)).1 = s ∧
    (parseMidiData s (b0 :: d1 :: d2 :: rest)).2.1 = [] := by
  simp only [parseMidiData, List.length_cons, List.getD_cons_zero, List.getD_cons_succ]
  rw [if_neg (by omega), if_neg h8, if_neg h9, if_neg h11]
  refine ⟨?_, ?_⟩ <;> (repeat' split) <;> rfl

/-- C8: Channel-agnostic decoding: two valid 3-byte frames agreeing on bits
4–7 of byte 0 and on bytes 1 and 2 select the same command nibble, produce
the same state update, and issue the same engine calls; the channel bits
0–3 of byte 0 never affect them. -/
theorem channel_agnostic_decode (s : MidiState) (b0 b0' d1 d2 : Nat)
    (h : (b0 % 256) &&& kMIDISysCmdChan = (b0' % 256) &&& kMIDISysCmdChan) :
    ((b0 % 256) &&& kMIDISysCmdChan) >>> 4 = ((b0' % 256) &&& kMIDISysCmdChan) >>> 4 ∧
    (parseMidiData s [b0, d1, d2]).1 = (parseMidiData s [b0', d1, d2]).1 ∧
    (parseMidiData s [b0, d1, d2]).2.1 = (parseMidiData s [b0', d1, d2]).2.1 := by
  have hc : ((b0 % 256) &&& kMIDISysCmdChan) >>> 4 =
      ((b0' % 256) &&& kMIDISysCmdChan) >>> 4 := by rw [h]
  refine ⟨hc, ?_⟩
  by_cases h8 : ((b0' % 256) &&& kMIDISysCmdChan) >>> 4 = kMIDIChanCmd_NoteOff
  · rw [parseMidiData_noteOff_eq s b0 d1 d2 [] (hc.trans h8),
      parseMidiData_noteOff_eq s b0' d1 d2 [] h8]
    exact ⟨rfl, rfl⟩
  · by_cases h9 : ((b0' % 256) &&& kMIDISysCmdChan) >>> 4 = kMIDIChanCmd_NoteOn
    · rw [parseMidiData_noteOn_eq s b0 d1 d2 [] (hc.trans h9),
        parseMidiData_noteOn_eq s b0' d1 d2 [] h9]
      exact ⟨rfl, rfl⟩
    · by_cases h11 : ((b0' % 256) &&& kMIDISysCmdChan) >>> 4 = kMIDIChanCmd_Control
      · rw [parseMidiData_control_eq s b0 d1 d2 [] (hc.trans h11),
          parseMidiData_control_eq s b0' d1 d2 [] h11]
        exact ⟨rfl, rfl⟩
      · have e1 := parseMidiData_other_eq s b0 d1 d2 []
          (fun hx => h8 (hc.symm.trans hx)) (fun hx => h9 (hc.symm.trans hx))
          (fun hx => h11 (hc.symm.trans hx))
        have e2 := parseMidiData_other_eq s b0' d1 d2 [] h8 h9 h11
        exact ⟨e1.1.trans e2.1.symm, e1.2.trans e2.2.symm⟩

/-- Witness for C8: NoteOn frames on channels 0 and 7 with the same note
and velocity. -/
theorem channel_agnostic_decode_witness :
    ((0x90 : Nat) % 256) &&& kMIDISysCmdChan = ((0x97 : Nat) % 256) &&& kMIDISysCmdChan ∧
    ((((0x90 : Nat) % 256) &&& kMIDISysCmdChan) >>> 4 =
       (((0x97 : Nat) % 256) &&& kMIDISysCmdChan) >>> 4 ∧
     (parseMidiData ⟨false, ∅, ∅⟩ [0x90, 60, 100]).1 =
       (parseMidiData ⟨false, ∅, ∅⟩ [0x97, 60, 100]).1 ∧
     (parseMidiData ⟨false, ∅, ∅⟩ [0x90, 60, 100]).2.1 =
       (parseMidiData ⟨false, ∅, ∅⟩ [0x97, 60, 100]).2.1) :=
  ⟨by decide, channel_agnostic_decode ⟨false, ∅, ∅⟩ 0x90 0x97 60 100 (by decide)⟩

/-! ### Reachable-state invariants (C4, C5) -/

/-- Invariant: whenever the sustain flag is set, every playing note is also
sustained (it was caught by pedal-down or latched by the NoteOn branch). -/
def sustainCatchInv (s : MidiState) : Prop :=
  s.sustain = true → s.playNotes ⊆ s.sustainNotes

/-- Invariant: whenever the sustain flag is clear, no note is sustained. -/
def sustainClearInv (s : MidiState) : Prop :=
  s.sustain = false → s.sustainNotes = ∅

theorem parseMidiCmdControl_state_other (s : MidiState) (controller value : Nat)
    (h : controller ≠ kMIDIControl_Sustain) :
    (parseMidiCmdControl s controller value).1 = s := by
  unfold parseMidiCmdControl
  rw [if_neg h]
  split <;> rfl

theorem sustainCatchInv_control (s : MidiState) (c v : Nat) (h : sustainCatchInv s) :
    sustainCatchInv (parseMidiCmdControl s c v).1 := by
  by_cases hc : c = kMIDIControl_Sustain
  · subst hc
    rw [show kMIDIControl_Sustain = (64 : Nat) from rfl]
    by_cases hv : 64 ≤ v
    · rw [parseMidiCmdControl_pedal_down_eq s v hv]
      intro _
      exact Finset.subset_union_right
    · rw [parseMidiCmdControl_pedal_up_eq s v (by omega)]
      intro hs
      simp at hs
  · rw [parseMidiCmdControl_state_other s c v hc]
    exact h

theorem sustainClearInv_control (s : MidiState) (c v : Nat) (h : sustainClearInv s) :
    sustainClearInv (parseMidiCmdControl s c v).1 := by
  by_cases hc : c = kMIDIControl_Sustain
  · subst hc
    rw [show kMIDIControl_Sustain = (64 : Nat) from rfl]
    by_cases hv : 64 ≤ v
    · rw [parseMidiCmdControl_pedal_down_eq s v hv]
      intro hs
      simp at hs
    · rw [parseMidiCmdControl_pedal_up_eq s v (by omega)]
      intro _
      rfl
  · rw [parseMidiCmdControl_state_other s c v hc]
    exact h

theorem sustainCatchInv_step (s : MidiState) (data : List Nat) (h : sustainCatchInv s) :
    sustainCatchInv (parseMidiData s data).1 := by
  rcases data with _ | ⟨b0, _ | ⟨d1, _ | ⟨d2, rest⟩⟩⟩
  · rw [short_frame_noop s [] (by simp)]
    exact h
  · rw [short_frame_noop s [b0] (by simp)]
    exact h
  · rw [short_frame_noop s [b0, d1] (by simp)]
    exact h
  · by_cases h8 : ((b0 % 256) &&& kMIDISysCmdChan) >>> 4 = kMIDIChanCmd_NoteOff
    · rw [parseMidiData_noteOff_eq s b0 d1 d2 rest h8]
      intro hs
      replace hs : s.sustain = true := hs
      show s.playNotes.erase (d1 % 256) ⊆
        (if s.sustain then s.sustainNotes else s.sustainNotes.erase (d1 % 256))
      rw [if_pos hs]
      exact (Finset.erase_subset _ _).trans (h hs)
    · by_cases h9 : ((b0 % 256) &&& kMIDISysCmdChan) >>> 4 = kMIDIChanCmd_NoteOn
      · rw [parseMidiData_noteOn_eq s b0 d1 d2 rest h9]
        intro hs
        replace hs : s.sustain = true := hs
        show insert (d1 % 256) s.playNotes ⊆
          (if s.sustain then insert (d1 % 256) s.sustainNotes else s.sustainNotes)
        rw [if_pos hs]
        exact Finset.insert_subset_insert _ (h hs)
      · by_cases h11 : ((b0 % 256) &&& kMIDISysCmdChan) >>> 4 = kMIDIChanCmd_Control
        · rw [parseMidiData_control_eq s b0 d1 d2 rest h11]
          exact sustainCatchInv_control s _ _ h
        · rw [(parseMidiData_other_eq s b0 d1 d2 rest h8 h9 h11).1]
          exact h

theorem sustainClearInv_step (s : MidiState) (data : List Nat) (h : sustainClearInv s) :
    sustainClearInv (parseMidiData s data).1 := by
  rcases data with _ | ⟨b0, _ | ⟨d1, _ | ⟨d2, rest⟩⟩⟩
  · rw [short_frame_noop s [] (by simp)]
    exact h
  · rw [short_frame_noop s [b0] (by simp)]
    exact h
  · rw [short_frame_noop s [b0, d1] (by simp)]
    exact h
  · by_cases h8 : ((b0 % 256) &&& kMIDISysCmdChan) >>> 4 = kMIDIChanCmd_NoteOff
    · rw [parseMidiData_noteOff_eq s b0 d1 d2 rest h8]
      intro hs
      replace hs : s.sustain = false := hs
      show (if s.sustain then s.sustainNotes else s.sustainNotes.erase (d1 % 256)) = ∅
      rw [if_neg (by rw [hs]; exact Bool.false_ne_true), h hs]
      exact Finset.erase_empty _
    · by_cases h9 : ((b0 % 256) &&& kMIDISysCmdChan) >>> 4 = kMIDIChanCmd_NoteOn
      · rw [parseMidiData_noteOn_eq s b0 d1 d2 rest h9]
        intro hs
        replace hs : s.sustain = false := hs
        show (if s.sustain then insert (d1 % 256) s.sustainNotes else s.sustainNotes) = ∅
        rw [if_neg (by rw [hs]; exact Bool.false_ne_true)]
        exact h hs
      · by_cases h11 : ((b0 % 256) &&& kMIDISysCmdChan) >>> 4 = kMIDIChanCmd_Control
        · rw [parseMidiData_control_eq s b0 d1 d2 rest h11]
          exact sustainClearInv_control s _ _ h
        · rw [(parseMidiData_other_eq s b0 d1 d2 rest h8 h9 h11).1]
          exact h

theorem sustainCatchInv_processFrames (frames : List (List Nat)) (s : MidiState)
    (h : sustainCatchInv s) : sustainCatchInv (processFrames s frames) := by
  induction frames generalizing s with
  | nil => exact h
  | cons f fs ih => exact ih (parseMidiData s f).1 (sustainCatchInv_step s f h)

theorem sustainClearInv_processFrames (frames : List (List Nat)) (s : MidiState)
    (h : sustainClearInv s) : sustainClearInv (processFrames s frames) := by
  induction frames generalizing s with
  | nil => exact h
  | cons f fs ih => exact ih (parseMidiData s f).1 (sustainClearInv_step s f h)

/-- C4: Invariant: in every state reachable from the initial state by any
sequence of decoded frames, if the sustain flag is true then Playing Notes
is a subset of Sustained Notes. -/
theorem reachable_play_subset_sustain (frames : List (List Nat))
    (h : (processFrames initState frames).sustain = true) :
    (processFrames initState frames).playNotes ⊆
      (processFrames initState frames).sustainNotes :=
  sustainCatchInv_processFrames frames initState
    (fun _ => Finset.empty_subset _) h

/-- Witness for C4: reachable state after NoteOn 60 then pedal-down. -/
theorem reachable_play_subset_sustain_witness :
    (processFrames initState [[0x90, 60, 100], [0xB0, 64, 127]]).sustain = true ∧
    (processFrames initState [[0x90, 60, 100], [0xB0, 64, 127]]).playNotes ⊆
      (processFrames initState [[0x90, 60, 100], [0xB0, 64, 127]]).sustainNotes :=
  ⟨by decide, reachable_play_subset_sustain [[0x90, 60, 100], [0xB0, 64, 127]] (by decide)⟩

/-- C5: Invariant: in every state reachable from the initial state by any
sequence of decoded frames, if the sustain flag is false then Sustained
Notes is empty, so the NoteOff-branch erase from Sustained Notes is a
no-op. -/
theorem reachable_sustain_off_empty (frames : List (List Nat)) (n : Nat)
    (h : (processFrames initState frames).sustain = false) :
    (processFrames initState frames).sustainNotes = ∅ ∧
    (processFrames initState frames).sustainNotes.erase n =
      (processFrames initState frames).sustainNotes := by
  have he : (processFrames initState frames).sustainNotes = ∅ :=
    sustainClearInv_processFrames frames initState (fun _ => rfl) h
  refine ⟨he, ?_⟩
  rw [he]
  exact Finset.erase_empty _

/-- Witness for C5: reachable state after NoteOn 60, pedal-down, NoteOff 60,
pedal-up — sustain is off again and the sustained set is empty. -/
theorem reachable_sustain_off_empty_witness :
    (processFrames initState
      [[0x90, 60, 100], [0xB0, 64, 127], [0x80, 60, 0], [0xB0, 64, 0]]).sustain = false ∧
    ((processFrames initState
        [[0x90, 60, 100], [0xB0, 64, 127], [0x80, 60, 0], [0xB0, 64, 0]]).sustainNotes = ∅ ∧
     (processFrames initState
        [[0x90, 60, 100], [0xB0, 64, 127], [0x80, 60, 0], [0xB0, 64, 0]]).sustainNotes.erase 62 =
       (processFrames initState
        [[0x90, 60, 100], [0xB0, 64, 127], [0x80, 60, 0], [0xB0, 64, 0]]).sustainNotes) :=
  ⟨by decide,
    reachable_sustain_off_empty
      [[0x90, 60, 100], [0xB0, 64, 127], [0x80, 60, 0], [0xB0, 64, 0]] 62 (by decide)⟩

/-! ### C3: NoteOff conditioned on the sustain flag -/

/-- C3: NoteOff rule conditioned on the sustain flag: in any reachable
state, for every note n in Playing Notes, a NoteOff frame for n removes n
from Playing Notes; if the sustain flag is false it issues exactly one
engine note-off(n) and removes n from Sustained Notes, and if the sustain
flag is true it issues no engine call and n remains a member of Sustained
Notes. -/
theorem noteOff_rule_reachable (frames : List (List Nat)) (b0 n v : Nat) (rest : List Nat)
    (hcmd : ((b0 % 256) &&& kMIDISysCmdChan) >>> 4 = kMIDIChanCmd_NoteOff)
    (hn : n < 256)
    (hmem : n ∈ (processFrames initState frames).playNotes) :
    (parseMidiData (processFrames initState frames) (b0 :: n :: v :: rest)).1.playNotes =
      (processFrames initState frames).playNotes.erase n ∧
    ((processFrames initState frames).sustain = false →
      (parseMidiData (processFrames initState frames) (b0 :: n :: v :: rest)).2.1 =
        [SynthCall.noteOff n] ∧
      (parseMidiData (processFrames initState frames) (b0 :: n :: v :: rest)).1.sustainNotes =
        (processFrames initState frames).sustainNotes.erase n) ∧
    ((processFrames initState frames).sustain = true →
      (parseMidiData (processFrames initState frames) (b0 :: n :: v :: rest)).2.1 = [] ∧
      n ∈ (parseMidiData (processFrames initState frames) (b0 :: n :: v :: rest)).1.sustainNotes) := by
  rw [parseMidiData_noteOff_eq (processFrames initState frames) b0 n v rest hcmd,
    Nat.mod_eq_of_lt hn]
  refine ⟨rfl, fun hs => ⟨?_, ?_⟩, fun hs => ⟨?_, ?_⟩⟩
  · show (if (processFrames initState frames).sustain then []
      else [SynthCall.noteOff n]) = [SynthCall.noteOff n]
    rw [if_neg (by rw [hs]; exact Bool.false_ne_true)]
  · show (if (processFrames initState frames).sustain
        then (processFrames initState frames).sustainNotes
        else (processFrames initState frames).sustainNotes.erase n) =
      (processFrames initState frames).sustainNotes.erase n
    rw [if_neg (by rw [hs]; exact Bool.false_ne_true)]
  · show (if (processFrames initState frames).sustain then []
      else [SynthCall.noteOff n]) = []
    rw [if_pos hs]
  · show n ∈ (if (processFrames initState frames).sustain
        then (processFrames initState frames).sustainNotes
        else (processFrames initState frames).sustainNotes.erase n)
    rw [if_pos hs]
    exact sustainCatchInv_processFrames frames initState
      (fun _ => Finset.empty_subset _) hs hmem

/-- Witness for C3: state reached by NoteOn 60 with sustain off; NoteOff 60
stops the note and removes it from both sets. -/
theorem noteOff_rule_reachable_witness :
    (((0x80 : Nat) % 256) &&& kMIDISysCmdChan) >>> 4 = kMIDIChanCmd_NoteOff ∧
    (60 : Nat) < 256 ∧
    60 ∈ (processFrames initState [[0x90, 60, 100]]).playNotes ∧
    ((parseMidiData (processFrames initState [[0x90, 60, 100]]) [0x80, 60, 0]).1.playNotes =
       (processFrames initState [[0x90, 60, 100]]).playNotes.erase 60 ∧
     ((processFrames initState [[0x90, 60, 100]]).sustain = false →
       (parseMidiData (processFrames initState [[0x90, 60, 100]]) [0x80, 60, 0]).2.1 =
         [SynthCall.noteOff 60] ∧
       (parseMidiData (processFrames initState [[0x90, 60, 100]]) [0x80, 60, 0]).1.sustainNotes =
         (processFrames initState [[0x90, 60, 100]]).sustainNotes.erase 60) ∧
     ((processFrames initState [[0x90, 60, 100]]).sustain = true →
       (parseMidiData (processFrames initState [[0x90, 60, 100]]) [0x80, 60, 0]).2.1 = [] ∧
       60 ∈ (parseMidiData (processFrames initState [[0x90, 60, 100]]) [0x80, 60, 0]).1.sustainNotes)) :=
  ⟨by decide, by decide, by decide,
    noteOff_rule_reachable [[0x90, 60, 100]] 0x80 60 0 [] (by decide) (by decide) (by decide)⟩

/-! ### C6: fatal transport result is terminal -/

theorem loopStep_stopped (ls : LoopState) (inp : TransportInput)
    (h : ls.reading = false) : loopStep ls inp = (ls, [], []) := by
  unfold loopStep
  rw [if_neg (by rw [h]; exact Bool.false_ne_true)]

theorem runLoop_stopped (ls : LoopState) (inps : List TransportInput)
    (h : ls.reading = false) : runLoop ls inps = (ls, []) := by
  induction inps with
  | nil => rfl
  | cons inp rest ih =>
    show (let r := loopStep ls inp
          let rr := runLoop r.1 rest
          (rr.1, r.2.1 ++ rr.2)) = (ls, [])
    rw [loopStep_stopped ls inp h]
    simpa using ih

/-- C6: Fatal transport result is terminal: if the loop is Running and the
transport returns a negative result, the reading flag becomes false, the
frame of that call is not decoded (no engine call, no trace, state
untouched) and every subsequent iteration processes nothing — the loop
never leaves the Stopped state. -/
theorem fatal_transport_terminal (ls : LoopState) (inp : TransportInput)
    (inps : List TransportInput)
    (hread : ls.reading = true) (hneg : inp.numMessagesReceived < 0) :
    (loopStep ls inp).1.reading = false ∧
    (loopStep ls inp).2.1 = [] ∧
    (loopStep ls inp).2.2 = [] ∧
    (loopStep ls inp).1.midi = ls.midi ∧
    (runLoop (loopStep ls inp).1 inps).2 = [] ∧
    (runLoop (loopStep ls inp).1 inps).1 = (loopStep ls inp).1 := by
  have hstep : loopStep ls inp = (⟨false, ls.midi⟩, [], []) := by
    unfold loopStep
    have hcond : ¬(0 < inp.numMessagesReceived ∧ inp.opcode = AMIDI_OPCODE_DATA ∧
        (inp.message.getD 0 0 % 256) &&& kMIDISysCmdChan ≠ kMIDISysCmdChan) := by
      rintro ⟨hpos, -, -⟩
      omega
    rw [if_pos hread]
    simp only [if_neg hcond, if_pos hneg]
  rw [hstep]
  exact ⟨rfl, rfl, rfl, rfl,
    by rw [runLoop_stopped ⟨false, ls.midi⟩ inps rfl],
    by rw [runLoop_stopped ⟨false, ls.midi⟩ inps rfl]⟩

/-- Witness for C6: a running loop hit by a fatal result (−1), then offered
a further perfectly valid NoteOn data frame that must be ignored. -/
theorem fatal_transport_terminal_witness :
    (⟨true, initState⟩ : LoopState).reading = true ∧
    (⟨-1, 3, 1, [0x90, 60, 100]⟩ : TransportInput).numMessagesReceived < 0 ∧
    ((loopStep ⟨true, initState⟩ ⟨-1, 3, 1, [0x90, 60, 100]⟩).1.reading = false ∧
     (loopStep ⟨true, initState⟩ ⟨-1, 3, 1, [0x90, 60, 100]⟩).2.1 = [] ∧
     (loopStep ⟨true, initState⟩ ⟨-1, 3, 1, [0x90, 60, 100]⟩).2.2 = [] ∧
     (loopStep ⟨true, initState⟩ ⟨-1, 3, 1, [0x90, 60, 100]⟩).1.midi =
       (⟨true, initState⟩ : LoopState).midi ∧
     (runLoop (loopStep ⟨true, initState⟩ ⟨-1, 3, 1, [0x90, 60, 100]⟩).1
        [⟨1, 3, 1, [0x90, 60, 100]⟩]).2 = [] ∧
     (runLoop (loopStep ⟨true, initState⟩ ⟨-1, 3, 1, [0x90, 60, 100]⟩).1
        [⟨1, 3, 1, [0x90, 60, 100]⟩]).1 =
       (loopStep ⟨true, initState⟩ ⟨-1, 3, 1, [0x90, 60, 100]⟩).1) :=
  ⟨by decide, by decide,
    fatal_transport_terminal ⟨true, initState⟩ ⟨-1, 3, 1, [0x90, 60, 100]⟩
      [⟨1, 3, 1, [0x90, 60, 100]⟩] (by decide) (by decide)⟩
